import Mathlib

/-
Verification development for the weather_comparison repository
(src/weather_pull.py).  The program is embedded shallowly:

* cell values (Python floats, ints, strings, pandas NaN) become `Value`
  with exact rationals for the numeric cases;
* a Python dict / one pandas row becomes an ordered association list
  `Row`; a pandas DataFrame becomes `DataFrame`, a list of aligned rows
  (the column order of a frame is the key order of its rows);
* the file system becomes a map from paths to parse results, so a stored
  file is either a table that parses back or a corrupt file;
* fallible Python operations return `Except String`.
-/

namespace WeatherPull

/-- A cell value: a number (Python ints and floats, modelled exactly as
rationals), a string, or the pandas missing value NaN. -/
inductive Value where
  | num (q : ℚ)
  | str (s : String)
  | nan
deriving DecidableEq, Repr

/-- Subtraction of two cells, as the pandas arithmetic used on line 108-112:
number minus number subtracts, NaN propagates, and anything else (for
example string columns) raises. -/
def Value.sub : Value → Value → Except String Value
  | Value.num a, Value.num b => Except.ok (Value.num (a - b))
  | Value.nan, Value.num _ => Except.ok Value.nan
  | Value.num _, Value.nan => Except.ok Value.nan
  | Value.nan, Value.nan => Except.ok Value.nan
  | _, _ => Except.error "TypeError: unsupported operand types"

/-- One dict or one pandas row: keys in insertion order with their values. -/
abbrev Row := List (String × Value)

/-- A pandas DataFrame: the list of its rows.  All rows of a well formed
frame carry the same keys in the same order; the frame column list is the
key list of its rows. -/
abbrev DataFrame := List Row

/-- The key list of a row. -/
def keys (r : Row) : List String := r.map Prod.fst

/-- The column list of a frame (the key list of its first row;
a frame with no rows has no columns in this model). -/
def cols : DataFrame → List String
  | [] => []
  | r :: _ => keys r

/-- Python dict assignment and the pandas single column setitem: replace
the value at an existing key in place, otherwise append the new key at
the end. -/
def setItem (r : Row) (k : String) (v : Value) : Row :=
  if k ∈ keys r then r.map (fun p => if p.1 = k then (k, v) else p)
  else r ++ [(k, v)]

/-- The persisted state: each path is absent, or holds a file that either
parses back to a table or fails to parse.  CSV serialization itself is
treated as opaque. -/
abbrev FileSystem := String → Option (Except String DataFrame)

/-- to_csv: overwrite the file at the path with the table. -/
def writeCsv (fs : FileSystem) (p : String) (d : DataFrame) : FileSystem :=
  fun q => if q = p then some (Except.ok d) else fs q

/-- pd.read_csv: raise when the file is missing, return its parse result
otherwise. -/
def readCsv (fs : FileSystem) (p : String) : Except String DataFrame :=
  match fs p with
  | some r => r
  | none => Except.error "FileNotFoundError"

/-- os.path.exists. -/
def pathExists (fs : FileSystem) (p : String) : Bool := (fs p).isSome

/-- The section of the weather service response that line 35 reads; per the
docstring of api_call it holds exactly these six numeric fields. -/
structure MainSection where
  temp : ℚ
  feels_like : ℚ
  temp_min : ℚ
  temp_max : ℚ
  pressure : ℚ
  humidity : ℚ
deriving DecidableEq, Repr

/-- A successfully decoded response of the weather endpoint: its main
section and its top level dt field, a UTC Unix timestamp. -/
structure ApiResponse where
  main : MainSection
  dt : Int
deriving DecidableEq, Repr

/-- The main section as the dict that response['main'] denotes, in the
order the service emits the fields. -/
def mainRow (m : MainSection) : Row :=
  [("temp", Value.num m.temp),
   ("feels_like", Value.num m.feels_like),
   ("temp_min", Value.num m.temp_min),
   ("temp_max", Value.num m.temp_max),
   ("pressure", Value.num m.pressure),
   ("humidity", Value.num m.humidity)]

/-- Left pad a natural number with zeros to the given width, as strftime
does for %Y, %m, %d. -/
def padNum (w : Nat) (n : Nat) : String :=
  let s := toString n
  if s.length < w then String.mk (List.replicate (w - s.length) '0') ++ s else s

/-- Civil calendar date (proleptic Gregorian) of a day count since
1970-01-01, the standard civil-from-days conversion used by datetime. -/
def civilFromDays (days : Int) : Int × Nat × Nat :=
  let z := days + 719468
  let era := Int.fdiv z 146097
  let doe := (z - era * 146097).toNat
  let yoe := (doe - doe / 1460 + doe / 36524 - doe / 146096) / 365
  let doy := doe - (365 * yoe + yoe / 4 - yoe / 100)
  let mp := (5 * doy + 2) / 153
  let d := doy - (153 * mp + 2) / 5 + 1
  let m := if mp < 10 then mp + 3 else mp - 9
  ((yoe : Int) + era * 400 + (if m ≤ 2 then 1 else 0), m, d)

/-- Line 37: datetime.utcfromtimestamp(ts).strftime of the year-month-day
format string, modelled for the nonnegative years this program meets. -/
def formatUtcDate (ts : Int) : String :=
  let c := civilFromDays (Int.fdiv ts 86400)
  padNum 4 c.1.toNat ++ "-" ++ padNum 2 c.2.1 ++ "-" ++ padNum 2 c.2.2

/-- Line 7: the module level credential. -/
def AUTH_KEY : String := ""

/-- Lines 32-40 (api_call) on a successfully decoded response: take the
main dict, add the location key and the formatted date, and wrap the
dict in a one element list.  The request itself (line 34) is the external
collaborator; its outcome is the ApiResponse argument. -/
def apiCall (apiKey city state country : String) (response : ApiResponse) :
    List Row :=
  let weather := mainRow response.main
  let weather := setItem weather "city, state" (Value.str (city ++ ", " ++ state))
  let weather := setItem weather "dt" (Value.str (formatUtcDate response.dt))
  [weather]

/-- The try block of _init_df, lines 50-52: os.path.exists on the Python
None argument raises TypeError; on a present path the file is read (and
parsing may raise); on an absent path nothing happens.  The local df the
block assigns is irrelevant because the function never returns it. -/
def initDfTry (fs : FileSystem) (csvPath : Option String) :
    Except String (Option DataFrame) :=
  match csvPath with
  | none => Except.error "TypeError: os.path.exists of None"
  | some p =>
      if pathExists fs p then (readCsv fs p).map some
      else Except.ok none

/-- Lines 42-54 (_init_df): the try block either finishes or its exception
is swallowed by the bare except; in both branches the function body ends
without a return statement, so the Python value None is returned. -/
def initDf (fs : FileSystem) (csvPath : Option String) :
    Except String (Option DataFrame) :=
  match initDfTry fs csvPath with
  | Except.ok _ => Except.ok none
  | Except.error _ => Except.ok none

/-- The characters before the first comma. -/
def beforeComma : List Char → List Char
  | [] => []
  | c :: cs => if c = ',' then [] else c :: beforeComma cs

/-- Python split on a comma, first piece: the whole string when it has no
comma, its part before the first comma otherwise. -/
def splitFirst (s : String) : String :=
  String.mk (beforeComma s.data)

/-- Lines 56-67 (_column_renamer): read the location key of the first dict
of the weather list (IndexError on an empty list, KeyError on a missing
key, and a non string value has no split method), take the substring
before the first comma as the city name, and put it before every column
name. -/
def columnRenamer (df : DataFrame) (weatherList : List Row) :
    Except String (DataFrame × String) :=
  match weatherList with
  | [] => Except.error "IndexError: list index out of range"
  | w :: _ =>
      match w.lookup "city, state" with
      | some (Value.str s) =>
          let cityName := splitFirst s
          Except.ok
            (df.map (fun r => r.map (fun p => (cityName ++ " " ++ p.1, p.2))),
             cityName)
      | some _ => Except.error "AttributeError: split"
      | none => Except.error "KeyError: city, state"

/-- Lines 69-77 (_column_creator). -/
def columnCreator (cityName1 cityName2 attr : String) : String × String :=
  (cityName1 ++ " " ++ attr, cityName2 ++ " " ++ attr)

/-- The key union of a list of dicts in first appearance order: the column
list pd.DataFrame gives a list of dicts. -/
def unionKeys (ws : List Row) : List String :=
  ws.foldl (fun acc w => acc ++ (keys w).filter (fun k => decide (k ∉ acc))) []

/-- pd.DataFrame on a list of dicts (lines 91-92): columns are the key
union, each dict becomes a row over those columns with NaN for a missing
key. -/
def pdDataFrame (ws : List Row) : DataFrame :=
  let cs := unionKeys ws
  ws.map (fun w => cs.map (fun k => (k, (w.lookup k).getD Value.nan)))

/-- An all NaN row over the given columns. -/
def nanRow (cs : List String) : Row := cs.map (fun k => (k, Value.nan))

/-- Pad a frame with NaN rows up to the given row count. -/
def padTo (d : DataFrame) (n : Nat) : DataFrame :=
  d ++ List.replicate (n - d.length) (nanRow (cols d))

/-- Line 97, pd.concat axis 1: outer join of the two frames on the row
index; each row is the extension of the left row by the right row, with
all NaN rows filling the shorter frame. -/
def concatCols (d1 d2 : DataFrame) : DataFrame :=
  let n := max d1.length d2.length
  List.zipWith (fun a b => a ++ b) (padTo d1 n) (padTo d2 n)

/-- Column selection of one row for one name with possibly duplicate
labels: every entry whose key matches, in order. -/
def selectRow (r : Row) (names : List String) : Row :=
  names.flatMap (fun n => r.filter (fun p => p.1 == n))

/-- Line 98, getitem with a list of labels: raise KeyError when a label is
absent, otherwise gather for every listed label all columns carrying it. -/
def selectCols (d : DataFrame) (names : List String) :
    Except String DataFrame :=
  if ∀ n ∈ names, n ∈ cols d then Except.ok (d.map (fun r => selectRow r names))
  else Except.error "KeyError"

/-- Apply a fallible row transformation to every row of a frame. -/
def mapRows (f : Row → Except String Row) : DataFrame → Except String DataFrame
  | [] => Except.ok []
  | r :: rs => do
      let r2 ← f r
      let rs2 ← mapRows f rs
      pure (r2 :: rs2)

/-- One difference column assignment of lines 108-112, for example
combined_df of temp_diff becomes column a minus column b.  When each
label names exactly one column, the subtraction runs cellwise and the
result is set as a single new or existing column.  A missing label is the
pandas KeyError of getitem; a label naming several columns makes the
subtraction a frame, and assigning a many column frame to one column is
the pandas ValueError, so the collision of renamed columns fails here
rather than overwriting anything. -/
def addDiffCol (d : DataFrame) (newName a b : String) :
    Except String DataFrame :=
  match (cols d).filter (fun c => c == a), (cols d).filter (fun c => c == b) with
  | [_], [_] =>
      mapRows (fun r => do
        let dv ← Value.sub ((r.lookup a).getD Value.nan)
          ((r.lookup b).getD Value.nan)
        pure (setItem r newName dv)) d
  | [], _ => Except.error ("KeyError: " ++ a)
  | _, [] => Except.error ("KeyError: " ++ b)
  | _, _ =>
      Except.error
        ("ValueError: cannot set a DataFrame with multiple columns to the single column "
          ++ newName)

/-- Line 98's interleaving selection list: one item from each frame in
turn, per zipped column pair. -/
def interleave (xs ys : List String) : List String :=
  (List.zip xs ys).flatMap (fun p => [p.1, p.2])

/-- Lines 91-112, the merge step of update_df: build the two one row
frames, put the city name before each column name, join them side by
side, interleave the columns, and append the five difference columns.
Returns the combined frame and the two city names. -/
def mergeRecords (weather1 weather2 : List Row) :
    Except String (DataFrame × String × String) := do
  let weatherOneDf := pdDataFrame weather1
  let weatherTwoDf := pdDataFrame weather2
  let p1 ← columnRenamer weatherOneDf weather1
  let p2 ← columnRenamer weatherTwoDf weather2
  let weatherOneDf := p1.1
  let cityNameOne := p1.2
  let weatherTwoDf := p2.1
  let cityNameTwo := p2.2
  let combined := concatCols weatherOneDf weatherTwoDf
  let combined ← selectCols combined (interleave (cols weatherOneDf) (cols weatherTwoDf))
  let tempPair := columnCreator cityNameOne cityNameTwo "temp"
  let humidityPair := columnCreator cityNameOne cityNameTwo "humidity"
  let pressurePair := columnCreator cityNameOne cityNameTwo "pressure"
  let tempMaxPair := columnCreator cityNameOne cityNameTwo "temp_max"
  let tempMinPair := columnCreator cityNameOne cityNameTwo "temp_min"
  let combined ← addDiffCol combined "temp_diff" tempPair.1 tempPair.2
  let combined ← addDiffCol combined "humidity_diff" humidityPair.1 humidityPair.2
  let combined ← addDiffCol combined "pressure_diff" pressurePair.1 pressurePair.2
  let combined ← addDiffCol combined "temp_max_diff" tempMaxPair.1 tempMaxPair.2
  let combined ← addDiffCol combined "temp_min_diff" tempMinPair.1 tempMinPair.2
  pure (combined, cityNameOne, cityNameTwo)

/-- Reindex a row to the given columns, NaN for a missing key. -/
def reindexRow (cs : List String) (r : Row) : Row :=
  cs.map (fun k => (k, (r.lookup k).getD Value.nan))

/-- pd.concat axis 0 of an old frame and the combined frame: columns are
the union in first appearance order, rows of both frames follow in order,
NaN filling the columns a side lacks. -/
def concatOuter (o d : DataFrame) : DataFrame :=
  let u := cols o ++ (cols d).filter (fun k => decide (k ∉ cols o))
  (o ++ d).map (reindexRow u)

/-- Line 114, pd.concat of the list holding old_df and combined_df: a None
entry is silently dropped by pandas, so the old side contributes nothing
when _init_df produced None. -/
def concatRows : Option DataFrame → DataFrame → DataFrame
  | none, d => d
  | some o, d => concatOuter o d

/-- Keep each row whose key the scan has not seen before, as the pandas
keep first scan does: a row with an already seen key is dropped, any
other row is kept and its key recorded. -/
def dedupBy (key : Row → List (Option Value))
    (seen : List (List (Option Value))) : DataFrame → DataFrame
  | [] => []
  | r :: rs =>
      if key r ∈ seen then dedupBy key seen rs
      else r :: dedupBy key (key r :: seen) rs

/-- Line 115, drop_duplicates keyed on a subset of columns with the
default keep first: KeyError when a subset column is absent from the
frame, otherwise rows comparing equal on exactly the subset columns
collapse to the first occurrence, other rows and the order untouched. -/
def dropDuplicates (d : DataFrame) (subset : List String) :
    Except String DataFrame :=
  match d with
  | [] => if subset.isEmpty then Except.ok [] else Except.error "KeyError"
  | r :: _ =>
      if ∀ n ∈ subset, n ∈ keys r then
        Except.ok (dedupBy (fun row => subset.map (fun n => row.lookup n)) [] d)
      else Except.error "KeyError"

/-- Python truthiness of the optional path of lines 117-120: None and the
empty string are falsy. -/
def truthy : Option String → Bool
  | none => false
  | some s => !s.isEmpty

/-- Lines 117-120: write to the given path when it is truthy, otherwise to
the default file named from the two city names. -/
def destPath (csvPath : Option String) (cityName1 cityName2 : String) : String :=
  if truthy csvPath then csvPath.getD ""
  else cityName1 ++ "_and_" ++ cityName2 ++ "_weather_comparison.csv"

/-- Lines 79-120 (update_df): load the old frame (always None, see
initDf), merge the two readings, append the merged frame after the old
rows, drop duplicate date pairs, and write the result out. -/
def updateDf (weather1 weather2 : List Row) (csvPath : Option String)
    (fs : FileSystem) : Except String FileSystem := do
  let oldDf ← initDf fs csvPath
  let m ← mergeRecords weather1 weather2
  let combined := m.1
  let cityNameOne := m.2.1
  let cityNameTwo := m.2.2
  let dtPair := columnCreator cityNameOne cityNameTwo "dt"
  let newDf := concatRows oldDf combined
  let newDf ← dropDuplicates newDf [dtPair.1, dtPair.2]
  pure (writeCsv fs (destPath csvPath cityNameOne cityNameTwo) newDf)

/-- The try block of main, lines 128-134: fetch both locations (the two
network outcomes are the arguments) and run update_df with no path. -/
def mainChain (r1 r2 : Except String ApiResponse) (fs : FileSystem) :
    Except String FileSystem := do
  let resp1 ← r1
  let weatherOne := apiCall AUTH_KEY "austin" "tx" "us" resp1
  let resp2 ← r2
  let weatherTwo := apiCall AUTH_KEY "saratoga" "ca" "us" resp2
  updateDf weatherOne weatherTwo none fs

/-- Lines 123-136 (main): True with the new state on success, False with
the old state when any exception is caught. -/
def mainRun (r1 r2 : Except String ApiResponse) (fs : FileSystem) :
    Bool × FileSystem :=
  match mainChain r1 r2 fs with
  | Except.ok fs2 => (true, fs2)
  | Except.error _ => (false, fs)

/-! Concrete data: the end to end example of the specification, and small
file systems used to evaluate the embedded program. -/

/-- The austin reading of the end to end example. -/
def exResp1 : ApiResponse :=
  ⟨⟨92.05, 95.14, 88.29, 95.27, 1011, 43⟩, 1632009667⟩

/-- The saratoga reading of the end to end example. -/
def exResp2 : ApiResponse :=
  ⟨⟨75.0, 74.0, 70.0, 78.0, 1015, 55⟩, 1632009667⟩

/-- The fetched austin weather list. -/
def exW1 : List Row := apiCall AUTH_KEY "austin" "tx" "us" exResp1

/-- The fetched saratoga weather list. -/
def exW2 : List Row := apiCall AUTH_KEY "saratoga" "ca" "us" exResp2

/-- The file system with no files. -/
def fsEmpty : FileSystem := fun _ => none

/-- A small persisted table used as a pre existing history file. -/
def exHistoryTable : DataFrame :=
  [[("austin dt", Value.str "2021-09-18"), ("saratoga dt", Value.str "2021-09-18")]]

/-- A file system holding one parseable history file. -/
def fsWithHistory : FileSystem := writeCsv fsEmpty "weather.csv" exHistoryTable

/-- Helper fact shared by several proofs: whatever the path argument and
the file system, _init_df finishes without raising and returns the Python
value None, because neither branch of its body reaches a return
statement. -/
theorem initDf_always_none (fs : FileSystem) (cp : Option String) :
    initDf fs cp = Except.ok none := by
  unfold initDf
  cases h : initDfTry fs cp <;> rfl

/-- C2: for every input, _init_df returns None rather than a table — its
branches assign a local df but the function has no return statement —
so the loaded history is never propagated and the old frame of update_df
is always None. -/
theorem c2_init_df_always_returns_none (fs : FileSystem) (cp : Option String) :
    initDf fs cp = Except.ok none :=
  initDf_always_none fs cp

/-- C1 (evaluation at the failing inputs): on an unset path, on a
nonexistent file, and even on an existing parseable file, _init_df
returns None without raising — not the empty table the specification
promises. -/
theorem c1_init_df_returns_none_not_empty_table :
    initDf fsEmpty none = Except.ok none ∧
    initDf fsEmpty (some "weather.csv") = Except.ok none ∧
    initDf fsWithHistory (some "weather.csv") = Except.ok none ∧
    initDf fsEmpty none ≠ Except.ok (some []) ∧
    initDf fsWithHistory (some "weather.csv") ≠ Except.ok (some exHistoryTable) := by
  refine ⟨rfl, rfl, rfl, ?_, ?_⟩ <;>
    · intro h
      rw [initDf_always_none] at h
      simp at h

/-- C3: main returns true exactly when the whole fetch, merge, load,
append and save chain succeeds, and any exception anywhere in the chain,
whatever its message, turns into the same false with the state kept. -/
theorem c3_main_boolean_outcome (r1 r2 : Except String ApiResponse)
    (fs : FileSystem) :
    (∀ fs2, mainChain r1 r2 fs = Except.ok fs2 → mainRun r1 r2 fs = (true, fs2)) ∧
    (∀ e, mainChain r1 r2 fs = Except.error e → mainRun r1 r2 fs = (false, fs)) := by
  constructor
  · intro fs2 h
    simp [mainRun, h]
  · intro e h
    simp [mainRun, h]

/-- Witness for C3: a failing first fetch makes main return false with the
file system untouched. -/
theorem c3_witness :
    mainRun (Except.error "ConnectionError") (Except.error "x") fsEmpty =
      (false, fsEmpty) :=
  (c3_main_boolean_outcome _ _ _).2 "ConnectionError" rfl

/-- C7: when either fetch fails, main returns false and the whole file
system — in particular any pre existing persisted file — is exactly the
one from before the run: no write happens after the failure. -/
theorem c7_fetch_failure_leaves_files_untouched (r1 r2 : Except String ApiResponse)
    (fs : FileSystem) (h : r1.isOk = false ∨ r2.isOk = false) :
    mainRun r1 r2 fs = (false, fs) := by
  cases r1 with
  | error e => rfl
  | ok a =>
      cases r2 with
      | error e => rfl
      | ok b => simp [Except.isOk, Except.toBool] at h

/-- Witness for C7: a network failure on the first fetch with a history
file present returns false and keeps that file byte for byte. -/
theorem c7_witness :
    mainRun (Except.error "ConnectionError: refused") (Except.ok exResp2)
      fsWithHistory = (false, fsWithHistory) :=
  c7_fetch_failure_leaves_files_untouched _ _ _ (Or.inl rfl)

/-- C9: on a successful response, api_call returns a one element list
holding the main section fields under their six names, then the location
key of the two location parts, then the date string converted from the
UTC Unix timestamp; and the conversion yields the calendar form
year-month-day, checked on the docstring timestamp. -/
theorem c9_api_call_shape (k city state country : String) (r : ApiResponse) :
    apiCall k city state country r =
      [mainRow r.main ++
        [("city, state", Value.str (city ++ ", " ++ state)),
         ("dt", Value.str (formatUtcDate r.dt))]] ∧
    keys (mainRow r.main) =
      ["temp", "feels_like", "temp_min", "temp_max", "pressure", "humidity"] ∧
    formatUtcDate 1632009667 = "2021-09-19" :=
  ⟨rfl, rfl, rfl⟩

/-! Properties of the duplicate dropping step (line 115). -/

/-- The comparison key drop_duplicates uses in update_df: the values of
the two date columns of the current city pair, and nothing else. -/
def dateKey (city1 city2 : String) (r : Row) : List (Option Value) :=
  [r.lookup (columnCreator city1 city2 "dt").1,
   r.lookup (columnCreator city1 city2 "dt").2]

/-- The dedup scan returns a subsequence of its input: surviving rows keep
their relative order. -/
theorem dedupBy_sublist (key : Row → List (Option Value)) (l : DataFrame) :
    ∀ seen, (dedupBy key seen l).Sublist l := by
  induction l with
  | nil => intro seen; simp [dedupBy]
  | cons r rs ih =>
      intro seen
      rw [dedupBy]
      split
      · exact (ih seen).trans (List.sublist_cons_self r rs)
      · exact List.Sublist.cons₂ r (ih (key r :: seen))

/-- Rows surviving the dedup scan avoid the seen keys, and no two of them
share a key. -/
theorem dedupBy_pairwise_aux (key : Row → List (Option Value)) (l : DataFrame) :
    ∀ seen, (∀ r2 ∈ dedupBy key seen l, key r2 ∉ seen) ∧
      List.Pairwise (fun a b => key a ≠ key b) (dedupBy key seen l) := by
  induction l with
  | nil => intro seen; simp [dedupBy]
  | cons r rs ih =>
      intro seen
      rw [dedupBy]
      split
      · exact ih seen
      · refine ⟨?_, ?_⟩
        · intro r2 hm
          rcases List.mem_cons.mp hm with he | ht
          · subst he; assumption
          · exact fun hs =>
              (ih (key r :: seen)).1 r2 ht (List.mem_cons_of_mem _ hs)
        · refine List.Pairwise.cons ?_ (ih (key r :: seen)).2
          intro b hb
          exact fun he =>
            (ih (key r :: seen)).1 b hb (he ▸ List.mem_cons_self _ _)

/-- No two rows of the dedup result share a key. -/
theorem dedupBy_pairwise (key : Row → List (Option Value)) (l : DataFrame) :
    List.Pairwise (fun a b => key a ≠ key b) (dedupBy key [] l) :=
  (dedupBy_pairwise_aux key l []).2

/-- A row preceded by no row of the same key survives the dedup scan: the
first occurrence of each key is kept. -/
theorem dedupBy_keeps_first (key : Row → List (Option Value)) (l1 : DataFrame) :
    ∀ (r : Row) (l2 : DataFrame) (seen : List (List (Option Value))),
      key r ∉ seen → (∀ r2 ∈ l1, key r2 ≠ key r) →
      r ∈ dedupBy key seen (l1 ++ (r :: l2)) := by
  induction l1 with
  | nil =>
      intro r l2 seen hseen _
      rw [List.nil_append, dedupBy, if_neg hseen]
      exact List.mem_cons_self _ _
  | cons a l1 ih =>
      intro r l2 seen hseen h
      rw [List.cons_append, dedupBy]
      split
      · exact ih r l2 seen hseen (fun r2 hm => h r2 (List.mem_cons_of_mem a hm))
      · refine List.mem_cons_of_mem a (ih r l2 (key a :: seen) ?_ ?_)
        · intro hs
          rcases List.mem_cons.mp hs with he | ht
          · exact (h a (List.mem_cons_self a l1)) he.symm
          · exact hseen ht
        · exact fun r2 hm => h r2 (List.mem_cons_of_mem a hm)

/-- C6: the duplicate removal of update_df compares rows only on the two
date columns of the current city pair; the result is a subsequence of the
input (relative order kept), no two surviving rows share the date pair,
and a row preceded by no row with the same date pair — in particular the
first occurrence of each date pair — is kept. -/
theorem c6_drop_duplicates_first_occurrence (d : DataFrame)
    (city1 city2 : String) (d2 : DataFrame)
    (h : dropDuplicates d
      [(columnCreator city1 city2 "dt").1, (columnCreator city1 city2 "dt").2] =
      Except.ok d2) :
    d2.Sublist d ∧
    List.Pairwise (fun a b => dateKey city1 city2 a ≠ dateKey city1 city2 b) d2 ∧
    (∀ l1 r l2, d = l1 ++ (r :: l2) →
      (∀ r2 ∈ l1, dateKey city1 city2 r2 ≠ dateKey city1 city2 r) → r ∈ d2) := by
  have hd2 : d2 = dedupBy (dateKey city1 city2) [] d := by
    cases d with
    | nil =>
        simp only [dropDuplicates] at h
        rw [if_neg (by simp)] at h
        exact absurd h (by simp)
    | cons r rs =>
        simp only [dropDuplicates] at h
        split at h
        · injection h with h2
          exact h2.symm
        · exact absurd h (by simp)
  subst hd2
  refine ⟨dedupBy_sublist _ d [], dedupBy_pairwise _ d, ?_⟩
  intro l1 r l2 hsplit hfirst
  subst hsplit
  exact dedupBy_keeps_first _ l1 r l2 [] (by simp) hfirst

/-- A table holding two rows with the same date pair around one with a
different pair. -/
def exDupTable : DataFrame :=
  [[("austin dt", Value.str "2021-09-19"), ("saratoga dt", Value.str "2021-09-19"),
    ("note", Value.str "first")],
   [("austin dt", Value.str "2021-09-20"), ("saratoga dt", Value.str "2021-09-20"),
    ("note", Value.str "second")],
   [("austin dt", Value.str "2021-09-19"), ("saratoga dt", Value.str "2021-09-19"),
    ("note", Value.str "third")]]

/-- What drop_duplicates leaves of exDupTable. -/
def exDupKept : DataFrame :=
  [[("austin dt", Value.str "2021-09-19"), ("saratoga dt", Value.str "2021-09-19"),
    ("note", Value.str "first")],
   [("austin dt", Value.str "2021-09-20"), ("saratoga dt", Value.str "2021-09-20"),
    ("note", Value.str "second")]]

/-- Witness for C6: on the concrete table the kept rows are a subsequence
with pairwise distinct date pairs, and the first occurrence of the
duplicated pair is among them. -/
theorem c6_witness :
    exDupKept.Sublist exDupTable ∧
    List.Pairwise
      (fun a b => dateKey "austin" "saratoga" a ≠ dateKey "austin" "saratoga" b)
      exDupKept ∧
    [("austin dt", Value.str "2021-09-19"), ("saratoga dt", Value.str "2021-09-19"),
      ("note", Value.str "first")] ∈ exDupKept := by
  have h := c6_drop_duplicates_first_occurrence exDupTable "austin" "saratoga"
    exDupKept rfl
  refine ⟨h.1, h.2.1, ?_⟩
  exact h.2.2 [] _ (exDupTable.drop 1) rfl (by simp)

/-! The write back step of update_df (lines 114-120) and its consequences
for the append twice and destination claims. -/

/-- update_df in explicit sequencing form: the old frame is always None
(initDf), so the written table is the merged frame after duplicate
dropping, and the file system enters only through the final write. -/
theorem updateDf_eq (w1 w2 : List Row) (cp : Option String) (fs : FileSystem) :
    updateDf w1 w2 cp fs =
      Except.bind (mergeRecords w1 w2) (fun m =>
        Except.bind
          (dropDuplicates (concatRows none m.1)
            [(columnCreator m.2.1 m.2.2 "dt").1, (columnCreator m.2.1 m.2.2 "dt").2])
          (fun d => Except.ok (writeCsv fs (destPath cp m.2.1 m.2.2) d))) := by
  unfold updateDf
  rw [initDf_always_none]
  rfl

/-- A successful update_df run determines the merged frame, the written
table and the destination; the same run on any other file system succeeds
with the same table at the same destination. -/
theorem updateDf_ok_shape (w1 w2 : List Row) (cp : Option String)
    (fs fs1 : FileSystem) (h : updateDf w1 w2 cp fs = Except.ok fs1) :
    ∃ m d, mergeRecords w1 w2 = Except.ok m ∧
      dropDuplicates (concatRows none m.1)
        [(columnCreator m.2.1 m.2.2 "dt").1, (columnCreator m.2.1 m.2.2 "dt").2] =
        Except.ok d ∧
      fs1 = writeCsv fs (destPath cp m.2.1 m.2.2) d ∧
      ∀ g, updateDf w1 w2 cp g =
        Except.ok (writeCsv g (destPath cp m.2.1 m.2.2) d) := by
  rw [updateDf_eq] at h
  rcases hm : mergeRecords w1 w2 with e | m <;> rw [hm] at h
  · exact Except.noConfusion h
  · simp only [Except.bind] at h
    rcases hd : dropDuplicates (concatRows none m.1)
        [(columnCreator m.2.1 m.2.2 "dt").1, (columnCreator m.2.1 m.2.2 "dt").2]
      with e | d <;> rw [hd] at h
    · exact Except.noConfusion h
    · simp only [Except.bind] at h
      injection h with h1
      refine ⟨m, d, rfl, hd, h1.symm, ?_⟩
      intro g
      rw [updateDf_eq, hm]
      simp only [Except.bind]
      rw [hd]

/-- The merge step in explicit sequencing form. -/
theorem mergeRecords_eq (w1 w2 : List Row) :
    mergeRecords w1 w2 =
      Except.bind (columnRenamer (pdDataFrame w1) w1) (fun p1 =>
        Except.bind (columnRenamer (pdDataFrame w2) w2) (fun p2 =>
          Except.bind
            (selectCols (concatCols p1.1 p2.1) (interleave (cols p1.1) (cols p2.1)))
            (fun c0 =>
          Except.bind (addDiffCol c0 "temp_diff"
              (columnCreator p1.2 p2.2 "temp").1 (columnCreator p1.2 p2.2 "temp").2)
            (fun c1 =>
          Except.bind (addDiffCol c1 "humidity_diff"
              (columnCreator p1.2 p2.2 "humidity").1
              (columnCreator p1.2 p2.2 "humidity").2)
            (fun c2 =>
          Except.bind (addDiffCol c2 "pressure_diff"
              (columnCreator p1.2 p2.2 "pressure").1
              (columnCreator p1.2 p2.2 "pressure").2)
            (fun c3 =>
          Except.bind (addDiffCol c3 "temp_max_diff"
              (columnCreator p1.2 p2.2 "temp_max").1
              (columnCreator p1.2 p2.2 "temp_max").2)
            (fun c4 =>
          Except.bind (addDiffCol c4 "temp_min_diff"
              (columnCreator p1.2 p2.2 "temp_min").1
              (columnCreator p1.2 p2.2 "temp_min").2)
            (fun c5 =>
          Except.ok (c5, p1.2, p2.2)))))))))
      := rfl

/-- A fallible rowwise map preserves the row count when it succeeds. -/
theorem mapRows_ok_length (f : Row → Except String Row) :
    (l : DataFrame) → (l2 : DataFrame) → mapRows f l = Except.ok l2 →
      l2.length = l.length
  | [], l2, h => by
      simp only [mapRows] at h
      injection h with h1
      rw [← h1]
  | r :: rs, l2, h => by
      simp only [mapRows] at h
      rcases hf : f r with e | r2 <;> rw [hf] at h
      · exact Except.noConfusion h
      · rcases hrs : mapRows f rs with e | rs2 <;> rw [hrs] at h
        · exact Except.noConfusion h
        · injection h with h1
          rw [← h1]
          simp [mapRows_ok_length f rs rs2 hrs]

/-- The renamer keeps the row count. -/
theorem columnRenamer_ok_length (df : DataFrame) (wl : List Row)
    (df2 : DataFrame) (c : String)
    (h : columnRenamer df wl = Except.ok (df2, c)) : df2.length = df.length := by
  cases wl with
  | nil => exact Except.noConfusion h
  | cons w ws =>
      simp only [columnRenamer] at h
      rcases hlu : w.lookup "city, state" with _ | v <;> rw [hlu] at h
      · exact Except.noConfusion h
      · cases v with
        | num q => exact Except.noConfusion h
        | str s =>
            injection h with h1
            injection h1 with h1a h1b
            rw [← h1a]
            simp
        | nan => exact Except.noConfusion h

/-- Column selection keeps the row count. -/
theorem selectCols_ok_length (d : DataFrame) (names : List String)
    (d2 : DataFrame) (h : selectCols d names = Except.ok d2) :
    d2.length = d.length := by
  simp only [selectCols] at h
  split at h
  · injection h with h1
    rw [← h1]
    simp
  · exact Except.noConfusion h

/-- A difference column assignment keeps the row count. -/
theorem addDiffCol_ok_length (d : DataFrame) (newName a b : String)
    (d2 : DataFrame) (h : addDiffCol d newName a b = Except.ok d2) :
    d2.length = d.length := by
  simp only [addDiffCol] at h
  split at h
  · exact mapRows_ok_length _ d d2 h
  · exact Except.noConfusion h
  · exact Except.noConfusion h
  · exact Except.noConfusion h

/-- Joining two one row frames side by side gives one row. -/
theorem concatCols_len_one (d1 d2 : DataFrame) (h1 : d1.length = 1)
    (h2 : d2.length = 1) : (concatCols d1 d2).length = 1 := by
  obtain ⟨x, rfl⟩ := List.length_eq_one.mp h1
  obtain ⟨y, rfl⟩ := List.length_eq_one.mp h2
  rfl

/-- A successful merge of two single reading lists yields a single row
frame. -/
theorem mergeRecords_ok_length (r1 r2 : Row) (m : DataFrame × String × String)
    (h : mergeRecords [r1] [r2] = Except.ok m) : ∃ row, m.1 = [row] := by
  rw [mergeRecords_eq] at h
  rcases hc1 : columnRenamer (pdDataFrame [r1]) [r1] with e | p1 <;> rw [hc1] at h
  · exact Except.noConfusion h
  simp only [Except.bind] at h
  rcases hc2 : columnRenamer (pdDataFrame [r2]) [r2] with e | p2 <;> rw [hc2] at h
  · exact Except.noConfusion h
  simp only [Except.bind] at h
  rcases hs : selectCols (concatCols p1.1 p2.1) (interleave (cols p1.1) (cols p2.1))
    with e | c0 <;> rw [hs] at h
  · exact Except.noConfusion h
  simp only [Except.bind] at h
  rcases ha1 : addDiffCol c0 "temp_diff"
      (columnCreator p1.2 p2.2 "temp").1 (columnCreator p1.2 p2.2 "temp").2
    with e | c1 <;> rw [ha1] at h
  · exact Except.noConfusion h
  simp only [Except.bind] at h
  rcases ha2 : addDiffCol c1 "humidity_diff"
      (columnCreator p1.2 p2.2 "humidity").1 (columnCreator p1.2 p2.2 "humidity").2
    with e | c2 <;> rw [ha2] at h
  · exact Except.noConfusion h
  simp only [Except.bind] at h
  rcases ha3 : addDiffCol c2 "pressure_diff"
      (columnCreator p1.2 p2.2 "pressure").1 (columnCreator p1.2 p2.2 "pressure").2
    with e | c3 <;> rw [ha3] at h
  · exact Except.noConfusion h
  simp only [Except.bind] at h
  rcases ha4 : addDiffCol c3 "temp_max_diff"
      (columnCreator p1.2 p2.2 "temp_max").1 (columnCreator p1.2 p2.2 "temp_max").2
    with e | c4 <;> rw [ha4] at h
  · exact Except.noConfusion h
  simp only [Except.bind] at h
  rcases ha5 : addDiffCol c4 "temp_min_diff"
      (columnCreator p1.2 p2.2 "temp_min").1 (columnCreator p1.2 p2.2 "temp_min").2
    with e | c5 <;> rw [ha5] at h
  · exact Except.noConfusion h
  simp only [Except.bind] at h
  injection h with h1
  have hlen : c5.length = 1 := by
    have l1 : p1.1.length = 1 := by
      rw [columnRenamer_ok_length (pdDataFrame [r1]) [r1] p1.1 p1.2 (by simpa using hc1)]
      rfl
    have l2 : p2.1.length = 1 := by
      rw [columnRenamer_ok_length (pdDataFrame [r2]) [r2] p2.1 p2.2 (by simpa using hc2)]
      rfl
    have l3 : c0.length = 1 := by
      rw [selectCols_ok_length _ _ _ hs]
      exact concatCols_len_one _ _ l1 l2
    rw [addDiffCol_ok_length _ _ _ _ _ ha5, addDiffCol_ok_length _ _ _ _ _ ha4,
      addDiffCol_ok_length _ _ _ _ _ ha3, addDiffCol_ok_length _ _ _ _ _ ha2,
      addDiffCol_ok_length _ _ _ _ _ ha1]
    exact l3
  obtain ⟨row, hrow⟩ := List.length_eq_one.mp hlen
  exact ⟨row, by rw [← h1, hrow]⟩

/-- Dropping duplicates of a one row frame returns that frame. -/
theorem dropDuplicates_singleton (r : Row) (subset : List String)
    (d : DataFrame) (h : dropDuplicates [r] subset = Except.ok d) : d = [r] := by
  simp only [dropDuplicates] at h
  split at h
  · injection h with h1
    exact h1.symm
  · exact Except.noConfusion h

/-- A nonempty supplied path is the destination. -/
theorem destPath_some (p : String) (hp : p ≠ "") (c1 c2 : String) :
    destPath (some p) c1 c2 = p := by
  simp [destPath, truthy, String.isEmpty_iff, hp]

/-- Writing the same table to the same path twice is one write. -/
theorem writeCsv_idem (fs : FileSystem) (p : String) (d : DataFrame) :
    writeCsv (writeCsv fs p d) p d = writeCsv fs p d := by
  funext q
  simp only [writeCsv]
  split <;> rfl

/-- C4: appending the same single comparison record twice through
update_df at the same nonempty path changes nothing the second time —
the persisted state after the second run is the state after the first —
and the persisted table holds exactly one row, so no two persisted rows
share a date pair. -/
theorem c4_append_twice_keeps_one_row (r1 r2 : Row) (p : String)
    (fs fs1 fs2 : FileSystem) (hp : p ≠ "")
    (h1 : updateDf [r1] [r2] (some p) fs = Except.ok fs1)
    (h2 : updateDf [r1] [r2] (some p) fs1 = Except.ok fs2) :
    fs2 = fs1 ∧ ∃ row, fs1 p = some (Except.ok [row]) := by
  obtain ⟨m, d, hm, hd, hfs1, hall⟩ := updateDf_ok_shape _ _ _ _ _ h1
  obtain ⟨row0, hrow⟩ := mergeRecords_ok_length r1 r2 m hm
  have hd1 : d = [row0] := by
    rw [hrow] at hd
    exact dropDuplicates_singleton row0 _ d hd
  have hpath : destPath (some p) m.2.1 m.2.2 = p := destPath_some p hp _ _
  have h2b := hall fs1
  rw [h2b] at h2
  injection h2 with h2c
  constructor
  · rw [← h2c, hfs1, hpath, writeCsv_idem]
  · refine ⟨row0, ?_⟩
    rw [hfs1, hpath, hd1]
    simp [writeCsv]

/-- The first run of the C4 witness, extracted from the run itself. -/
def exFs1 : FileSystem :=
  match updateDf exW1 exW2 (some "hist.csv") fsEmpty with
  | Except.ok f => f
  | Except.error _ => fsEmpty

/-- The second run of the C4 witness. -/
def exFs2 : FileSystem :=
  match updateDf exW1 exW2 (some "hist.csv") exFs1 with
  | Except.ok f => f
  | Except.error _ => fsEmpty

/-- Witness for C4: running the example append twice at the same path
leaves the state of the first run unchanged. -/
theorem c4_witness : exFs2 = exFs1 := by
  have h1 : updateDf [exW1.headD []] [exW2.headD []] (some "hist.csv") fsEmpty =
      Except.ok exFs1 := rfl
  have h2 : updateDf [exW1.headD []] [exW2.headD []] (some "hist.csv") exFs1 =
      Except.ok exFs2 := rfl
  exact (c4_append_twice_keeps_one_row _ _ _ _ _ _ (by decide) h1 h2).1

/-- The run of update_df with the empty string supplied as the path. -/
def exFsEmptyPath : FileSystem :=
  match updateDf exW1 exW2 (some "") fsEmpty with
  | Except.ok f => f
  | Except.error _ => fsEmpty

/-- Counterexample to C10 as stated: with the path argument supplied as
the empty string, update_df succeeds but writes nothing at that path —
the table lands in the default named file instead, because line 117
tests Python truthiness rather than presence of the argument. -/
theorem c10_counterexample :
    updateDf exW1 exW2 (some "") fsEmpty = Except.ok exFsEmptyPath ∧
    exFsEmptyPath "" = none ∧
    exFsEmptyPath "austin_and_saratoga_weather_comparison.csv" ≠ none := by
  refine ⟨rfl, rfl, ?_⟩
  intro hcon
  exact Option.noConfusion hcon

/-- C10 amended: a nonempty supplied path receives the table, and only
it; with no path, or with the falsy empty string path, the table goes to
the default file named from the two short names of the run. -/
theorem c10_destination_amended (w1 w2 : List Row) (cp : Option String)
    (fs fs1 : FileSystem) (h : updateDf w1 w2 cp fs = Except.ok fs1) :
    (∀ p, cp = some p → p ≠ "" →
      fs1 p ≠ none ∧ ∀ q, q ≠ p → fs1 q = fs q) ∧
    (∀ m, mergeRecords w1 w2 = Except.ok m → (cp = none ∨ cp = some "") →
      fs1 (m.2.1 ++ "_and_" ++ m.2.2 ++ "_weather_comparison.csv") ≠ none ∧
      ∀ q, q ≠ m.2.1 ++ "_and_" ++ m.2.2 ++ "_weather_comparison.csv" →
        fs1 q = fs q) := by
  obtain ⟨m, d, hm, hd, hfs1, hall⟩ := updateDf_ok_shape _ _ _ _ _ h
  constructor
  · intro p hcp hp
    subst hcp
    rw [hfs1, destPath_some p hp]
    constructor
    · simp [writeCsv]
    · intro q hq
      simp [writeCsv, hq]
  · intro m2 hm2 hcp
    have hmm : m2 = m := by
      rw [hm] at hm2
      injection hm2 with h3
      exact h3.symm
    subst hmm
    have hpath : destPath cp m2.2.1 m2.2.2 =
        m2.2.1 ++ "_and_" ++ m2.2.2 ++ "_weather_comparison.csv" := by
      rcases hcp with hcp | hcp <;> subst hcp <;> rfl
    rw [hfs1, hpath]
    constructor
    · simp [writeCsv]
    · intro q hq
      simp [writeCsv, hq]

/-- The run of update_df with a nonempty path, for the C10 witness. -/
def exFsOut : FileSystem :=
  match updateDf exW1 exW2 (some "out.csv") fsEmpty with
  | Except.ok f => f
  | Except.error _ => fsEmpty

/-- Witness for C10 amended: the nonempty path receives the table. -/
theorem c10_witness : exFsOut "out.csv" ≠ none := by
  have h : updateDf exW1 exW2 (some "out.csv") fsEmpty = Except.ok exFsOut := rfl
  exact ((c10_destination_amended _ _ _ _ _ h).1 "out.csv" rfl (by decide)).1

/-! String facts: the renamer builds column names by putting a city name
before each attribute name, so distinctness of merged column names comes
down to cancellation and suffix facts about string append. -/

/-- Strings with equal character lists are equal. -/
theorem str_data_inj {a b : String} (h : a.data = b.data) : a = b := by
  cases a with
  | mk d1 =>
      cases b with
      | mk d2 => exact congrArg String.mk h

/-- Left cancellation for string append. -/
theorem str_app_cancel_left {a b c : String} (h : a ++ b = a ++ c) : b = c := by
  apply str_data_inj
  have h2 := congrArg String.data h
  rw [String.data_append, String.data_append] at h2
  exact List.append_cancel_left h2

/-- Right cancellation for string append. -/
theorem str_app_cancel_right {a b c : String} (h : a ++ c = b ++ c) : a = b := by
  apply str_data_inj
  have h2 := congrArg String.data h
  rw [String.data_append, String.data_append] at h2
  exact List.append_cancel_right h2

/-- When two appends agree, the shorter right part is a suffix of the
longer one. -/
theorem str_suffix_of_append_eq {a s b t : String} (h : a ++ s = b ++ t)
    (hl : s.length ≤ t.length) : s.data <:+ t.data := by
  have h2 := congrArg String.data h
  rw [String.data_append, String.data_append] at h2
  have h3 : s.data.reverse ++ a.data.reverse = t.data.reverse ++ b.data.reverse := by
    rw [← List.reverse_append, ← List.reverse_append, h2]
  have hp1 : s.data.reverse <+: t.data.reverse ++ b.data.reverse := by
    rw [← h3]
    exact List.prefix_append _ _
  have hp2 : t.data.reverse <+: t.data.reverse ++ b.data.reverse :=
    List.prefix_append _ _
  have hle : s.data.reverse.length ≤ t.data.reverse.length := by
    rw [List.length_reverse, List.length_reverse]
    exact hl
  exact List.reverse_prefix.mp (List.prefix_of_prefix_length_le hp1 hp2 hle)

/-- Appends with right parts that are not suffixes of each other differ. -/
theorem ne_append_of_no_suffix {s t : String} (hst : ¬ s.data <:+ t.data)
    (hts : ¬ t.data <:+ s.data) (a b : String) : a ++ s ≠ b ++ t := by
  intro h
  rcases Nat.le_total s.length t.length with hl | hl
  · exact hst (str_suffix_of_append_eq h hl)
  · exact hts (str_suffix_of_append_eq h.symm hl)

/-- An append whose right part is not mutually a suffix with a string
differs from that string. -/
theorem ne_of_no_suffix_left {s t : String} (hst : ¬ s.data <:+ t.data)
    (hts : ¬ t.data <:+ s.data) (a : String) : a ++ s ≠ t := fun he =>
  ne_append_of_no_suffix hst hts a "" (he.trans rfl)

/-- Putting one city name before two attribute names is injective. -/
theorem prefixed_injective (n : String) :
    Function.Injective (fun k => n ++ " " ++ k) := by
  intro k1 k2 h
  exact str_app_cancel_left h

/-- Prefixed distinct attribute names stay distinct. -/
theorem nodup_prefixed (S : List String) (hS : S.Nodup) (n : String) :
    (S.map (fun k => n ++ " " ++ k)).Nodup :=
  hS.map (prefixed_injective n)

/-- Attribute names prefixed with two different city names never collide,
as long as no attribute name is a suffix of another. -/
theorem disjoint_prefixed (S : List String)
    (hcross : List.Pairwise
      (fun s t => ¬ s.data <:+ t.data ∧ ¬ t.data <:+ s.data) S)
    (n1 n2 : String) (hn : n1 ≠ n2) :
    List.Disjoint (S.map (fun k => n1 ++ " " ++ k))
      (S.map (fun k => n2 ++ " " ++ k)) := by
  intro x h1 h2
  obtain ⟨s, hs, hxs⟩ := List.mem_map.mp h1
  obtain ⟨t, ht, hxt⟩ := List.mem_map.mp h2
  have he : n1 ++ " " ++ s = n2 ++ " " ++ t := hxs.trans hxt.symm
  by_cases hst : s = t
  · subst hst
    exact hn (str_app_cancel_right (str_app_cancel_right he))
  · have hcr := hcross.forall (fun _ _ hh => ⟨hh.2, hh.1⟩) hs ht hst
    exact ne_append_of_no_suffix hcr.1 hcr.2 (n1 ++ " ") (n2 ++ " ") he

/-- The sixteen merged column names are pairwise distinct when the two
city names differ. -/
theorem nodup_prefixed_append (S : List String) (hS : S.Nodup)
    (hcross : List.Pairwise
      (fun s t => ¬ s.data <:+ t.data ∧ ¬ t.data <:+ s.data) S)
    (n1 n2 : String) (hn : n1 ≠ n2) :
    ((S.map (fun k => n1 ++ " " ++ k)) ++ (S.map (fun k => n2 ++ " " ++ k))).Nodup :=
  (nodup_prefixed S hS n1).append (nodup_prefixed S hS n2)
    (disjoint_prefixed S hcross n1 n2 hn)

/-- A name that shares no suffix with any attribute name — such as the
difference column names — never equals a prefixed attribute name. -/
theorem notMem_prefixed (S : List String) (D : String)
    (hc : ∀ k ∈ S, ¬ k.data <:+ D.data ∧ ¬ D.data <:+ k.data) (n : String) :
    D ∉ S.map (fun k => n ++ " " ++ k) := by
  intro h
  obtain ⟨k, hk, he⟩ := List.mem_map.mp h
  exact ne_of_no_suffix_left (hc k hk).1 (hc k hk).2 (n ++ " ") he

/-- The attribute names of a reading, in column order. -/
def baseKeys : List String :=
  ["temp", "feels_like", "temp_min", "temp_max", "pressure", "humidity",
   "city, state", "dt"]

/-- The five difference column names in assignment order. -/
def diffNames : List String :=
  ["temp_diff", "humidity_diff", "pressure_diff", "temp_max_diff",
   "temp_min_diff"]

/-- The attribute names are pairwise distinct. -/
theorem baseKeys_nodup : baseKeys.Nodup := by decide

/-- No attribute name is a suffix of another, so prefixed attribute names
of different cities never coincide. -/
theorem baseKeys_cross : List.Pairwise
    (fun s t => ¬ s.data <:+ t.data ∧ ¬ t.data <:+ s.data) baseKeys := by decide

/-- No difference column name shares a suffix with an attribute name, so
the five assignments of lines 108-112 always append fresh columns. -/
theorem diffNames_cross : ∀ D ∈ diffNames, ∀ k ∈ baseKeys,
    ¬ k.data <:+ D.data ∧ ¬ D.data <:+ k.data := by decide

/-- The single dict api_call builds for a location. -/
def apiRow (city state : String) (r : ApiResponse) : Row :=
  mainRow r.main ++
    [("city, state", Value.str (city ++ ", " ++ state)),
     ("dt", Value.str (formatUtcDate r.dt))]

/-- A row with every key put after a city name, as _column_renamer does. -/
def prefRow (n : String) (r : Row) : Row :=
  r.map (fun p => (n ++ " " ++ p.1, p.2))

/-- api_call in terms of its row. -/
theorem apiCall_eq_apiRow (k c s ct : String) (r : ApiResponse) :
    apiCall k c s ct r = [apiRow c s r] := rfl

/-- The renamer on a fetched reading: one renamed row and the short name
of the location key. -/
theorem columnRenamer_apiCall (k c s ct : String) (r : ApiResponse) :
    columnRenamer (pdDataFrame (apiCall k c s ct r)) (apiCall k c s ct r) =
      Except.ok ([prefRow (splitFirst (c ++ ", " ++ s)) (apiRow c s r)],
        splitFirst (c ++ ", " ++ s)) := rfl

/-! Association list facts used to read the merged record off the
embedded pandas operations. -/

/-- Keys of an appended row. -/
theorem keys_append (r1 r2 : Row) : keys (r1 ++ r2) = keys r1 ++ keys r2 :=
  List.map_append _ _ _

/-- An entry contributes its key. -/
theorem mem_keys_of_mem {r : Row} {p : String × Value} (h : p ∈ r) :
    p.1 ∈ keys r :=
  List.mem_map_of_mem _ h

/-- Lookup misses when the key is absent. -/
theorem lookup_eq_none (r : Row) (a : String) (h : a ∉ keys r) :
    r.lookup a = none := by
  induction r with
  | nil => rfl
  | cons p r ih =>
      obtain ⟨k, v⟩ := p
      simp only [keys, List.map_cons, List.mem_cons, not_or] at h
      have hbeq : (a == k) = false := beq_eq_false_iff_ne.mpr h.1
      simp only [List.lookup, hbeq]
      exact ih h.2

/-- Lookup skips a left part without the key. -/
theorem lookup_append_right (r1 r2 : Row) (a : String) (h : a ∉ keys r1) :
    (r1 ++ r2).lookup a = r2.lookup a := by
  induction r1 with
  | nil => rfl
  | cons p r ih =>
      obtain ⟨k, v⟩ := p
      simp only [keys, List.map_cons, List.mem_cons, not_or] at h
      have hbeq : (a == k) = false := beq_eq_false_iff_ne.mpr h.1
      simp only [List.cons_append, List.lookup, hbeq]
      exact ih h.2

/-- Lookup keeps a hit of the left part. -/
theorem lookup_append_left (r1 r2 : Row) (a : String) (v : Value)
    (h : r1.lookup a = some v) : (r1 ++ r2).lookup a = some v := by
  induction r1 with
  | nil => exact Option.noConfusion h
  | cons p r ih =>
      obtain ⟨k, v2⟩ := p
      cases hbeq : a == k with
      | false =>
          simp only [List.lookup, hbeq] at h
          simp only [List.cons_append, List.lookup, hbeq]
          exact ih h
      | true =>
          simp only [List.lookup, hbeq] at h
          simp only [List.cons_append, List.lookup, hbeq]
          exact h

/-- With pairwise distinct keys, lookup finds the unique entry. -/
theorem lookup_of_mem_nodup (r : Row) (a : String) (v : Value)
    (hnd : (keys r).Nodup) (hm : (a, v) ∈ r) : r.lookup a = some v := by
  induction r with
  | nil => simp at hm
  | cons p r ih =>
      obtain ⟨k, w⟩ := p
      rcases List.mem_cons.mp hm with he | ht
      · injection he with h1 h2
        subst h1
        subst h2
        simp [List.lookup]
      · have hak : (a == k) = false := by
          refine beq_eq_false_iff_ne.mpr ?_
          intro he2
          subst he2
          have hmem2 := mem_keys_of_mem ht
          exact (List.nodup_cons.mp hnd).1 hmem2
        simp only [List.lookup, hak]
        exact ih (List.nodup_cons.mp hnd).2 ht

/-- The key filter misses when the key is absent. -/
theorem filter_keyeq_nil (r : Row) (a : String) (h : a ∉ keys r) :
    r.filter (fun p => p.1 == a) = [] := by
  induction r with
  | nil => rfl
  | cons p r ih =>
      obtain ⟨k, v⟩ := p
      simp only [keys, List.map_cons, List.mem_cons, not_or] at h
      have hbeq : (k == a) = false := beq_eq_false_iff_ne.mpr (Ne.symm h.1)
      rw [List.filter_cons_of_neg (by simp [hbeq])]
      exact ih h.2

/-- With pairwise distinct keys, the key filter returns exactly the unique
entry: the pandas getitem of a unique label is one column. -/
theorem filter_keyeq_of_mem_nodup (r : Row) (a : String) (v : Value)
    (hnd : (keys r).Nodup) (hm : (a, v) ∈ r) :
    r.filter (fun p => p.1 == a) = [(a, v)] := by
  induction r with
  | nil => simp at hm
  | cons p r ih =>
      obtain ⟨k, w⟩ := p
      rcases List.mem_cons.mp hm with he | ht
      · injection he with h1 h2
        subst h1
        subst h2
        rw [List.filter_cons_of_pos (by simp)]
        rw [filter_keyeq_nil r a (List.nodup_cons.mp hnd).1]
      · have hka : (k == a) = false := by
          refine beq_eq_false_iff_ne.mpr ?_
          intro he2
          subst he2
          have hmem2 := mem_keys_of_mem ht
          exact (List.nodup_cons.mp hnd).1 hmem2
        rw [List.filter_cons_of_neg (by simp [hka])]
        exact ih (List.nodup_cons.mp hnd).2 ht

/-- The same filter fact for plain name lists. -/
theorem filter_beq_nil (l : List String) (a : String) (h : a ∉ l) :
    l.filter (fun c => c == a) = [] := by
  induction l with
  | nil => rfl
  | cons k l ih =>
      simp only [List.mem_cons, not_or] at h
      have hka : (k == a) = false := beq_eq_false_iff_ne.mpr (Ne.symm h.1)
      rw [List.filter_cons_of_neg (by simp [hka])]
      exact ih h.2

/-- A pairwise distinct name list filters to the one occurrence. -/
theorem filter_beq_of_mem_nodup (l : List String) (a : String)
    (hnd : l.Nodup) (hm : a ∈ l) : l.filter (fun c => c == a) = [a] := by
  induction l with
  | nil => simp at hm
  | cons k l ih =>
      rcases List.mem_cons.mp hm with he | ht
      · subst he
        rw [List.filter_cons_of_pos (by simp)]
        rw [filter_beq_nil l a (List.nodup_cons.mp hnd).1]
      · have hka : (k == a) = false := by
          refine beq_eq_false_iff_ne.mpr ?_
          intro he2
          subst he2
          exact (List.nodup_cons.mp hnd).1 ht
        rw [List.filter_cons_of_neg (by simp [hka])]
        exact ih (List.nodup_cons.mp hnd).2 ht

/-- Keys of a row built by pairing names with values. -/
theorem keys_map_pair (names : List String) (f : String → Value) :
    keys (names.map (fun n => (n, f n))) = names := by
  induction names with
  | nil => rfl
  | cons n ns ih => exact congrArg (List.cons n) ih

/-- With pairwise distinct keys, the line 98 selection of one row reads
each listed name once, in list order. -/
theorem selectRow_of_nodup (r : Row) (names : List String)
    (hnd : (keys r).Nodup) (hmem : ∀ n ∈ names, n ∈ keys r) :
    selectRow r names = names.map (fun n => (n, (r.lookup n).getD Value.nan)) := by
  induction names with
  | nil => rfl
  | cons n ns ih =>
      have hn := hmem n (List.mem_cons_self n ns)
      obtain ⟨p, hp, hp1⟩ := List.mem_map.mp hn
      obtain ⟨k, v⟩ := p
      simp only at hp1
      subst hp1
      show (r.filter (fun p => p.1 == k)) ++ selectRow r ns = _
      rw [filter_keyeq_of_mem_nodup r k v hnd hp,
        ih (fun m hm => hmem m (List.mem_cons_of_mem _ hm))]
      simp only [List.map_cons, lookup_of_mem_nodup r k v hnd hp, Option.getD]
      rfl

/-- The interleaving of line 98 permutes the plain append of the two
column lists when they have equal length. -/
theorem interleave_perm (xs ys : List String) (h : xs.length = ys.length) :
    (interleave xs ys).Perm (xs ++ ys) := by
  induction xs generalizing ys with
  | nil =>
      cases ys with
      | nil => simp [interleave]
      | cons y ys => simp at h
  | cons x xs ih =>
      cases ys with
      | nil => simp at h
      | cons y ys =>
          have h2 : xs.length = ys.length := by simpa using h
          show (x :: y :: interleave xs ys).Perm ((x :: xs) ++ (y :: ys))
          refine List.Perm.cons x ?_
          exact (List.Perm.cons y (ih ys h2)).trans List.perm_middle.symm

/-- Python dict assignment appends a fresh key. -/
theorem setItem_notMem (r : Row) (k : String) (v : Value) (h : k ∉ keys r) :
    setItem r k v = r ++ [(k, v)] := by
  simp [setItem, h]

/-- One difference column assignment on a one row frame with pairwise
distinct column names: both operands are unique numeric columns and the
new name is fresh, so the new column is appended with the difference. -/
theorem addDiffCol_single (r : Row) (newName a b : String) (va vb : ℚ)
    (hnd : (keys r).Nodup) (ha : (a, Value.num va) ∈ r)
    (hb : (b, Value.num vb) ∈ r) (hnew : newName ∉ keys r) :
    addDiffCol [r] newName a b =
      Except.ok [r ++ [(newName, Value.num (va - vb))]] := by
  have hfa : (keys r).filter (fun c => c == a) = [a] :=
    filter_beq_of_mem_nodup _ _ hnd (mem_keys_of_mem ha)
  have hfb : (keys r).filter (fun c => c == b) = [b] :=
    filter_beq_of_mem_nodup _ _ hnd (mem_keys_of_mem hb)
  have hcols : cols [r] = keys r := rfl
  simp only [addDiffCol, hcols, hfa, hfb, mapRows,
    lookup_of_mem_nodup r a _ hnd ha, lookup_of_mem_nodup r b _ hnd hb,
    Option.getD, Value.sub, Except.bind, setItem_notMem r newName _ hnew]
  rfl



/-- Appending one fresh key keeps keys pairwise distinct. -/
theorem happend_nodup (l : List String) (D : String) (h1 : l.Nodup)
    (h2 : D ∉ l) : (l ++ [D]).Nodup := by
  refine h1.append (by simp) ?_
  intro x hx hx2
  simp at hx2
  subst hx2
  exact h2 hx

theorem c5_merge_columns_and_diffs
    (k1 c1 s1 ct1 k2 c2 s2 ct2 : String) (r1 r2 : ApiResponse)
    (hn : splitFirst (c1 ++ ", " ++ s1) ≠ splitFirst (c2 ++ ", " ++ s2)) :
    ∃ row, mergeRecords (apiCall k1 c1 s1 ct1 r1) (apiCall k2 c2 s2 ct2 r2) =
        Except.ok ([row], splitFirst (c1 ++ ", " ++ s1),
          splitFirst (c2 ++ ", " ++ s2)) ∧
      row.length = 2 * 8 + 5 ∧
      row.lookup "temp_diff" = some (Value.num (r1.main.temp - r2.main.temp)) ∧
      row.lookup "humidity_diff" =
        some (Value.num (r1.main.humidity - r2.main.humidity)) ∧
      row.lookup "pressure_diff" =
        some (Value.num (r1.main.pressure - r2.main.pressure)) ∧
      row.lookup "temp_max_diff" =
        some (Value.num (r1.main.temp_max - r2.main.temp_max)) ∧
      row.lookup "temp_min_diff" =
        some (Value.num (r1.main.temp_min - r2.main.temp_min)) := by
  set n1 := splitFirst (c1 ++ ", " ++ s1) with hn1def
  set n2 := splitFirst (c2 ++ ", " ++ s2) with hn2def
  set A := prefRow n1 (apiRow c1 s1 r1) with hAdef
  set B := prefRow n2 (apiRow c2 s2 r2) with hBdef
  have hK1 : keys A = baseKeys.map (fun k => n1 ++ " " ++ k) := rfl
  have hK2 : keys B = baseKeys.map (fun k => n2 ++ " " ++ k) := rfl
  have hndAB : (keys (A ++ B)).Nodup := by
    rw [keys_append, hK1, hK2]
    exact nodup_prefixed_append baseKeys baseKeys_nodup baseKeys_cross n1 n2 hn
  set names := interleave (keys A) (keys B) with hnamesdef
  have hperm : names.Perm (keys A ++ keys B) := interleave_perm _ _ rfl
  have hnamesnodup : names.Nodup :=
    hperm.nodup_iff.mpr ((keys_append A B) ▸ hndAB)
  set SEL := names.map (fun n => (n, ((A ++ B).lookup n).getD Value.nan))
    with hSELdef
  have hSEL : selectRow (A ++ B) names = SEL := by
    refine selectRow_of_nodup _ _ hndAB ?_
    intro n hn2
    rw [keys_append]
    exact hperm.subset hn2
  have hkeysSEL : keys SEL = names := keys_map_pair _ _
  have hndSEL : (keys SEL).Nodup := by rw [hkeysSEL]; exact hnamesnodup
  have hselc : selectCols (concatCols [A] [B])
      (interleave (cols [A]) (cols [B])) = Except.ok [SEL] := by
    unfold selectCols
    rw [if_pos]
    · show Except.ok [selectRow (A ++ B) names] = _
      rw [hSEL]
    · intro n hn2
      show n ∈ keys (A ++ B)
      rw [keys_append]
      exact hperm.subset hn2
  -- membership of the ten numeric operand entries in SEL
  have hmemA : ∀ (k : String) (v : ℚ), (k, Value.num v) ∈ apiRow c1 s1 r1 →
      ((n1 ++ " " ++ k), Value.num v) ∈ A := by
    intro k v hk
    rw [hAdef]
    exact List.mem_map.mpr ⟨(k, Value.num v), hk, rfl⟩
  have hmemB : ∀ (k : String) (v : ℚ), (k, Value.num v) ∈ apiRow c2 s2 r2 →
      ((n2 ++ " " ++ k), Value.num v) ∈ B := by
    intro k v hk
    rw [hBdef]
    exact List.mem_map.mpr ⟨(k, Value.num v), hk, rfl⟩
  have hSELmem : ∀ (x : String) (v : ℚ), (x, Value.num v) ∈ A ++ B →
      (x, Value.num v) ∈ SEL := by
    intro x v hx
    have hxk : x ∈ names := by
      rw [hnamesdef]
      refine (hperm.mem_iff).mpr ?_
      rw [← keys_append]
      exact mem_keys_of_mem hx
    have hlu : (A ++ B).lookup x = some (Value.num v) :=
      lookup_of_mem_nodup _ _ _ hndAB hx
    refine List.mem_map.mpr ⟨x, hxk, ?_⟩
    rw [hlu]
    rfl
  have ht1 : ((n1 ++ " " ++ "temp"), Value.num r1.main.temp) ∈ SEL :=
    hSELmem _ _ (List.mem_append_left _ (hmemA "temp" _ (by simp [apiRow, mainRow])))
  have ht2 : ((n2 ++ " " ++ "temp"), Value.num r2.main.temp) ∈ SEL :=
    hSELmem _ _ (List.mem_append_right _ (hmemB "temp" _ (by simp [apiRow, mainRow])))
  have hh1 : ((n1 ++ " " ++ "humidity"), Value.num r1.main.humidity) ∈ SEL :=
    hSELmem _ _ (List.mem_append_left _ (hmemA "humidity" _ (by simp [apiRow, mainRow])))
  have hh2 : ((n2 ++ " " ++ "humidity"), Value.num r2.main.humidity) ∈ SEL :=
    hSELmem _ _ (List.mem_append_right _ (hmemB "humidity" _ (by simp [apiRow, mainRow])))
  have hp1 : ((n1 ++ " " ++ "pressure"), Value.num r1.main.pressure) ∈ SEL :=
    hSELmem _ _ (List.mem_append_left _ (hmemA "pressure" _ (by simp [apiRow, mainRow])))
  have hp2 : ((n2 ++ " " ++ "pressure"), Value.num r2.main.pressure) ∈ SEL :=
    hSELmem _ _ (List.mem_append_right _ (hmemB "pressure" _ (by simp [apiRow, mainRow])))
  have hx1 : ((n1 ++ " " ++ "temp_max"), Value.num r1.main.temp_max) ∈ SEL :=
    hSELmem _ _ (List.mem_append_left _ (hmemA "temp_max" _ (by simp [apiRow, mainRow])))
  have hx2 : ((n2 ++ " " ++ "temp_max"), Value.num r2.main.temp_max) ∈ SEL :=
    hSELmem _ _ (List.mem_append_right _ (hmemB "temp_max" _ (by simp [apiRow, mainRow])))
  have hi1 : ((n1 ++ " " ++ "temp_min"), Value.num r1.main.temp_min) ∈ SEL :=
    hSELmem _ _ (List.mem_append_left _ (hmemA "temp_min" _ (by simp [apiRow, mainRow])))
  have hi2 : ((n2 ++ " " ++ "temp_min"), Value.num r2.main.temp_min) ∈ SEL :=
    hSELmem _ _ (List.mem_append_right _ (hmemB "temp_min" _ (by simp [apiRow, mainRow])))
  -- the five diff names are fresh for the selected columns
  have hfresh : ∀ D ∈ diffNames, D ∉ names := by
    intro D hD hmemD
    have h2 := hperm.subset hmemD
    rcases List.mem_append.mp h2 with h3 | h3
    · rw [hK1] at h3
      exact notMem_prefixed baseKeys D (fun k hk => diffNames_cross D hD k hk) n1 h3
    · rw [hK2] at h3
      exact notMem_prefixed baseKeys D (fun k hk => diffNames_cross D hD k hk) n2 h3
  -- the five successive rows
  set R1 := SEL ++ [("temp_diff", Value.num (r1.main.temp - r2.main.temp))]
    with hR1def
  set R2 := R1 ++ [("humidity_diff", Value.num (r1.main.humidity - r2.main.humidity))]
    with hR2def
  set R3 := R2 ++ [("pressure_diff", Value.num (r1.main.pressure - r2.main.pressure))]
    with hR3def
  set R4 := R3 ++ [("temp_max_diff", Value.num (r1.main.temp_max - r2.main.temp_max))]
    with hR4def
  set R5 := R4 ++ [("temp_min_diff", Value.num (r1.main.temp_min - r2.main.temp_min))]
    with hR5def
  have hkR1 : keys R1 = names ++ ["temp_diff"] := by
    rw [hR1def, keys_append, hkeysSEL]; rfl
  have hkR2 : keys R2 = (names ++ ["temp_diff"]) ++ ["humidity_diff"] := by
    rw [hR2def, keys_append, hkR1]; rfl
  have hkR3 : keys R3 = ((names ++ ["temp_diff"]) ++ ["humidity_diff"]) ++ ["pressure_diff"] := by
    rw [hR3def, keys_append, hkR2]; rfl
  have hkR4 : keys R4 = (((names ++ ["temp_diff"]) ++ ["humidity_diff"]) ++ ["pressure_diff"]) ++ ["temp_max_diff"] := by
    rw [hR4def, keys_append, hkR3]; rfl
  have hkR5 : keys R5 = ((((names ++ ["temp_diff"]) ++ ["humidity_diff"]) ++ ["pressure_diff"]) ++ ["temp_max_diff"]) ++ ["temp_min_diff"] := by
    rw [hR5def, keys_append, hkR4]; rfl
  have hf1 : "temp_diff" ∉ keys SEL := by
    rw [hkeysSEL]; exact hfresh _ (by simp [diffNames])
  have hf2 : "humidity_diff" ∉ keys R1 := by
    rw [hkR1]
    simp only [List.mem_append, List.mem_singleton]
    push_neg
    exact ⟨hfresh _ (by simp [diffNames]), by decide⟩
  have hf3 : "pressure_diff" ∉ keys R2 := by
    rw [hkR2]
    simp only [List.mem_append, List.mem_singleton]
    push_neg
    exact ⟨⟨hfresh _ (by simp [diffNames]), by decide⟩, by decide⟩
  have hf4 : "temp_max_diff" ∉ keys R3 := by
    rw [hkR3]
    simp only [List.mem_append, List.mem_singleton]
    push_neg
    exact ⟨⟨⟨hfresh _ (by simp [diffNames]), by decide⟩, by decide⟩, by decide⟩
  have hf5 : "temp_min_diff" ∉ keys R4 := by
    rw [hkR4]
    simp only [List.mem_append, List.mem_singleton]
    push_neg
    exact ⟨⟨⟨⟨hfresh _ (by simp [diffNames]), by decide⟩, by decide⟩, by decide⟩, by decide⟩
  have hndR1 : (keys R1).Nodup := by
    rw [hkR1]
    exact happend_nodup _ _ hnamesnodup (hfresh _ (by simp [diffNames]))
  have hndR2 : (keys R2).Nodup := by
    rw [hkR2]
    refine happend_nodup _ _ (hkR1 ▸ hndR1) (hkR1 ▸ hf2)
  have hndR3 : (keys R3).Nodup := by
    rw [hkR3]
    exact happend_nodup _ _ (hkR2 ▸ hndR2) (hkR2 ▸ hf3)
  have hndR4 : (keys R4).Nodup := by
    rw [hkR4]
    exact happend_nodup _ _ (hkR3 ▸ hndR3) (hkR3 ▸ hf4)
  have hndR5 : (keys R5).Nodup := by
    rw [hkR5]
    exact happend_nodup _ _ (hkR4 ▸ hndR4) (hkR4 ▸ hf5)
  -- the five assignments
  have hadd1 : addDiffCol [SEL] "temp_diff" (n1 ++ " " ++ "temp") (n2 ++ " " ++ "temp") =
      Except.ok [R1] :=
    addDiffCol_single SEL _ _ _ _ _ hndSEL ht1 ht2 hf1
  have hadd2 : addDiffCol [R1] "humidity_diff" (n1 ++ " " ++ "humidity") (n2 ++ " " ++ "humidity") =
      Except.ok [R2] :=
    addDiffCol_single R1 _ _ _ _ _ hndR1
      (List.mem_append_left _ hh1) (List.mem_append_left _ hh2) hf2
  have hadd3 : addDiffCol [R2] "pressure_diff" (n1 ++ " " ++ "pressure") (n2 ++ " " ++ "pressure") =
      Except.ok [R3] :=
    addDiffCol_single R2 _ _ _ _ _ hndR2
      (List.mem_append_left _ (List.mem_append_left _ hp1))
      (List.mem_append_left _ (List.mem_append_left _ hp2)) hf3
  have hadd4 : addDiffCol [R3] "temp_max_diff" (n1 ++ " " ++ "temp_max") (n2 ++ " " ++ "temp_max") =
      Except.ok [R4] :=
    addDiffCol_single R3 _ _ _ _ _ hndR3
      (List.mem_append_left _ (List.mem_append_left _ (List.mem_append_left _ hx1)))
      (List.mem_append_left _ (List.mem_append_left _ (List.mem_append_left _ hx2))) hf4
  have hadd5 : addDiffCol [R4] "temp_min_diff" (n1 ++ " " ++ "temp_min") (n2 ++ " " ++ "temp_min") =
      Except.ok [R5] :=
    addDiffCol_single R4 _ _ _ _ _ hndR4
      (List.mem_append_left _ (List.mem_append_left _ (List.mem_append_left _ (List.mem_append_left _ hi1))))
      (List.mem_append_left _ (List.mem_append_left _ (List.mem_append_left _ (List.mem_append_left _ hi2)))) hf5
  refine ⟨R5, ?_, ?_, ?_, ?_, ?_, ?_, ?_⟩
  · rw [mergeRecords_eq, columnRenamer_apiCall k1 c1 s1 ct1 r1,
      columnRenamer_apiCall k2 c2 s2 ct2 r2]
    simp only [Except.bind, columnCreator]
    rw [hselc]
    simp only [Except.bind]
    rw [hadd1]
    simp only [Except.bind]
    rw [hadd2]
    simp only [Except.bind]
    rw [hadd3]
    simp only [Except.bind]
    rw [hadd4]
    simp only [Except.bind]
    rw [hadd5]
  · have hlen16 : names.length = 16 := rfl
    have hlenSEL : SEL.length = names.length := List.length_map _ _
    rw [hR5def, hR4def, hR3def, hR2def, hR1def]
    simp [List.length_append, hlenSEL, hlen16]
  · refine lookup_of_mem_nodup _ _ _ hndR5 ?_
    exact List.mem_append_left _ (List.mem_append_left _ (List.mem_append_left _
      (List.mem_append_left _ (List.mem_append_right _ (by simp)))))
  · refine lookup_of_mem_nodup _ _ _ hndR5 ?_
    exact List.mem_append_left _ (List.mem_append_left _ (List.mem_append_left _
      (List.mem_append_right _ (by simp))))
  · refine lookup_of_mem_nodup _ _ _ hndR5 ?_
    exact List.mem_append_left _ (List.mem_append_left _
      (List.mem_append_right _ (by simp)))
  · refine lookup_of_mem_nodup _ _ _ hndR5 ?_
    exact List.mem_append_left _ (List.mem_append_right _ (by simp))
  · refine lookup_of_mem_nodup _ _ _ hndR5 ?_
    exact List.mem_append_right _ (by simp)


/-- Selection unfolding for one listed name. -/
theorem selectRow_cons (r : Row) (x : String) (ns : List String) :
    selectRow r (x :: ns) = (r.filter (fun p => p.1 == x)) ++ selectRow r ns := rfl

/-- With a label naming two or more columns, the difference assignment is
the pandas ValueError of setting a many column frame to one column. -/
theorem addDiffCol_dup (d : DataFrame) (newName a : String) (t : List String)
    (h : (cols d).filter (fun c => c == a) = a :: a :: t) :
    addDiffCol d newName a a =
      Except.error
        ("ValueError: cannot set a DataFrame with multiple columns to the single column "
          ++ newName) := by
  unfold addDiffCol
  rw [h]

theorem c8_same_short_name_merge_fails
    (k1 c1 s1 ct1 k2 c2 s2 ct2 : String) (r1 r2 : ApiResponse)
    (hn : splitFirst (c1 ++ ", " ++ s1) = splitFirst (c2 ++ ", " ++ s2)) :
    ∃ e, mergeRecords (apiCall k1 c1 s1 ct1 r1) (apiCall k2 c2 s2 ct2 r2) =
      Except.error e := by
  set n := splitFirst (c1 ++ ", " ++ s1) with hndef
  set A := prefRow n (apiRow c1 s1 r1) with hAdef
  set B := prefRow n (apiRow c2 s2 r2) with hBdef
  have hcr1 : columnRenamer (pdDataFrame (apiCall k1 c1 s1 ct1 r1))
      (apiCall k1 c1 s1 ct1 r1) = Except.ok ([A], n) :=
    columnRenamer_apiCall k1 c1 s1 ct1 r1
  have hcr2 : columnRenamer (pdDataFrame (apiCall k2 c2 s2 ct2 r2))
      (apiCall k2 c2 s2 ct2 r2) = Except.ok ([B], n) := by
    rw [columnRenamer_apiCall k2 c2 s2 ct2 r2, ← hn]
  have hndA : (keys A).Nodup := by
    rw [show keys A = baseKeys.map (fun k => n ++ " " ++ k) from rfl]
    exact nodup_prefixed baseKeys baseKeys_nodup n
  have hndB : (keys B).Nodup := by
    rw [show keys B = baseKeys.map (fun k => n ++ " " ++ k) from rfl]
    exact nodup_prefixed baseKeys baseKeys_nodup n
  set names := interleave (keys A) (keys B) with hnamesdef
  have hperm : names.Perm (keys A ++ keys B) := interleave_perm _ _ rfl
  have hselc : selectCols (concatCols [A] [B])
      (interleave (cols [A]) (cols [B])) = Except.ok [selectRow (A ++ B) names] := by
    unfold selectCols
    rw [if_pos]
    · rfl
    · intro m hm2
      show m ∈ keys (A ++ B)
      rw [keys_append]
      exact hperm.subset hm2
  set x := n ++ " " ++ "temp" with hxdef
  set restKeys := ["feels_like", "temp_min", "temp_max", "pressure", "humidity",
    "city, state", "dt"].map (fun k => n ++ " " ++ k) with hrkdef
  have hnames : names = x :: x :: interleave restKeys restKeys := rfl
  have hfilAB : (A ++ B).filter (fun p => p.1 == x) =
      [(x, Value.num r1.main.temp), (x, Value.num r2.main.temp)] := by
    rw [List.filter_append,
      filter_keyeq_of_mem_nodup A x (Value.num r1.main.temp) hndA
        (by rw [hAdef]; exact List.mem_map.mpr ⟨("temp", Value.num r1.main.temp),
          by simp [apiRow, mainRow], rfl⟩),
      filter_keyeq_of_mem_nodup B x (Value.num r2.main.temp) hndB
        (by rw [hBdef]; exact List.mem_map.mpr ⟨("temp", Value.num r2.main.temp),
          by simp [apiRow, mainRow], rfl⟩)]
    rfl
  have hSELshape : ∃ T, (keys (selectRow (A ++ B) names)).filter (fun c => c == x) =
      x :: x :: T := by
    rw [hnames, selectRow_cons, selectRow_cons]
    simp only [hfilAB]
    rw [keys_append, List.filter_append]
    refine ⟨(keys ([(x, Value.num r1.main.temp), (x, Value.num r2.main.temp)] ++
      selectRow (A ++ B) (interleave restKeys restKeys))).filter (fun c => c == x), ?_⟩
    simp [keys]
  obtain ⟨T, hT⟩ := hSELshape
  have hfail : addDiffCol [selectRow (A ++ B) names] "temp_diff" x x =
      Except.error
        ("ValueError: cannot set a DataFrame with multiple columns to the single column "
          ++ "temp_diff") :=
    addDiffCol_dup _ _ _ T hT
  refine ⟨"ValueError: cannot set a DataFrame with multiple columns to the single column "
    ++ "temp_diff", ?_⟩
  rw [mergeRecords_eq, hcr1, hcr2]
  simp only [Except.bind, columnCreator]
  rw [hselc]
  simp only [Except.bind]
  rw [hfail]

/-- The example diff values read back from the merged record. -/
def exProbeDiffs : Option Value × Option Value × Option Value :=
  match mergeRecords exW1 exW2 with
  | Except.ok (d, _, _) =>
      match d with
      | [row] =>
          (row.lookup "temp_diff", row.lookup "humidity_diff",
            row.lookup "pressure_diff")
      | _ => (none, none, none)
  | Except.error _ => (none, none, none)

/-- Witness for C5: on the end to end example the merged record carries
the specified differences. -/
theorem c5_witness :
    exProbeDiffs =
      (some (Value.num 17.05), some (Value.num (-12)), some (Value.num (-4))) := by
  obtain ⟨row, heq, _, ht, hh, hp, _, _⟩ :=
    c5_merge_columns_and_diffs AUTH_KEY "austin" "tx" "us" AUTH_KEY "saratoga"
      "ca" "us" exResp1 exResp2 (by decide)
  unfold exProbeDiffs exW1 exW2
  rw [heq]
  show (row.lookup "temp_diff", row.lookup "humidity_diff",
    row.lookup "pressure_diff") = _
  rw [ht, hh, hp]
  norm_num [exResp1, exResp2]

/-- Whether the merge of two readings for the same city name succeeds. -/
def exProbeSame : Bool :=
  match mergeRecords (apiCall AUTH_KEY "austin" "tx" "us" exResp1)
      (apiCall AUTH_KEY "austin" "ca" "us" exResp2) with
  | Except.ok _ => true
  | Except.error _ => false

/-- Witness for C8: merging two readings whose location keys share the
short name austin fails. -/
theorem c8_witness : exProbeSame = false := by
  obtain ⟨e, he⟩ := c8_same_short_name_merge_fails AUTH_KEY "austin" "tx" "us"
    AUTH_KEY "austin" "ca" "us" exResp1 exResp2 (by decide)
  unfold exProbeSame
  rw [he]

end WeatherPull
